import Mathlib

/-!
# Verification of the ICON portfolio provisioning client

A shallow embedding of the `ICONPortfolio` class (src/unnamed/part_000): a
session holding an Octokit handle, a user and a repository, with the five
network-backed methods `authenticate`/`getUser`, `createRepository`,
`getRepository`, `uploadFileToRepository`, `createGithubPage`, and the
base64 helper `convertToBase64`.

Central structural fact of the source: every request is written
`octokit.request(...)` with the bare identifier `octokit`, while the module
only ever binds `Octokit` (the imported class), the instance field
`this.octokit`, and the top-level constant `icon`.  Evaluating the bare
identifier therefore throws a `ReferenceError` before any argument is
evaluated or any request dispatched.  The embedding models identifier
resolution, JS error propagation through each method's try/catch, the
console output, and the list of HTTP requests actually issued.
-/

namespace IconPortfolio

/-- Errors a JavaScript evaluation can throw in this module: a
`ReferenceError` for an identifier with no binding in scope, a `TypeError`
for a property read on `null`, and the error Octokit throws for a non-2xx
response (carrying `error.response.data.message` when the body has one). -/
inductive JsError where
  | referenceError (ident : String)
  | typeError (msg : String)
  | apiError (status : Nat) (message : Option String)
  deriving Repr, DecidableEq

/-- `error.response?.data?.message` of a caught error: only an Octokit
request error carries a response body; a `ReferenceError` or `TypeError`
has no `response` property, so the optional chain yields `undefined`. -/
def responseDataMessage : JsError → Option String
  | .apiError _ m => m
  | .referenceError _ => none
  | .typeError _ => none

/-- `error.response?.data?.message ?? fallback`, the catch-block logging
expression shared by `getUser`, `createRepository` and `getRepository`
(their fallback templates only read in-scope parameters, so evaluating the
fallback cannot itself throw). -/
def caughtMessage (e : JsError) (fallback : String) : String :=
  (responseDataMessage e).getD fallback

/-- An HTTP request as `octokit.request` would issue it: method, path, and
the payload object's string fields. -/
structure HttpRequest where
  method : String
  path : String
  payload : List (String × String)
  deriving Repr, DecidableEq

/-- `response.data` of a successful request, restricted to the fields the
source reads: `.login` (user endpoint), `.name` (repository endpoints),
`.url` (pages endpoint). -/
structure ResponseData where
  login : String
  name : String
  url : String
  deriving Repr, DecidableEq

/-- The mocked remote API: what awaiting `octokit.request(req)` would
produce, had the dispatch been reached. -/
def Api : Type := HttpRequest → Except JsError ResponseData

/-- The session's User as the source reads it: `this.user.login`
(line 44, 74, 102, 136). -/
structure User where
  login : String
  deriving Repr, DecidableEq

/-- The session's Repository as the source reads it: `this.repository.name`
(lines 61, 83, 103, 137, 153). -/
structure Repository where
  name : String
  deriving Repr, DecidableEq

/-- An Octokit handle as constructed on lines 25-27: `new Octokit({ auth:
token })` with the resolved (possibly undefined) token. -/
structure Octokit where
  auth : Option String
  deriving Repr, DecidableEq

/-- The instance fields of class `ICONPortfolio` (lines 8-10), each
initialized to `null`. -/
structure PortfolioState where
  octokit : Option Octokit
  user : Option User
  repository : Option Repository
  deriving Repr, DecidableEq

/-- A freshly constructed `ICONPortfolio`: all three fields `null`. -/
def initialState : PortfolioState := ⟨none, none, none⟩

/-- Evaluating the bare identifier `octokit`.  The module's bindings are
the imports (`Octokit`, `dotenv`, `uuidv4`), the class `ICONPortfolio`,
the instance field `this.octokit`, and the top-level `icon`; a plain
`octokit` is never declared, so every occurrence of the bare identifier
throws `ReferenceError` -- before the call's arguments are evaluated,
since in `octokit.request(...)` the callee is resolved first. -/
def bareOctokit : Except JsError Octokit :=
  .error (.referenceError "octokit")

/-- The observable outcome of one method call: its returned value or the
error it rejects with, the session state after the call, the HTTP requests
actually dispatched, and the console output in order. -/
structure Outcome (α : Type) where
  result : Except JsError α
  state : PortfolioState
  requests : List HttpRequest
  logs : List String
  deriving Repr

/-! ## Base64 (`convertToBase64`, line 125-127)

`Buffer.from(convertString).toString('base64')`: the UTF-8 bytes of the
argument, encoded with the standard base64 alphabet and `=` padding. -/

/-- The standard base64 alphabet, in value order. -/
def b64Alphabet : List Char :=
  "ABCDEFGHIJKLMNOPQRSTUVWXYZabcdefghijklmnopqrstuvwxyz0123456789+/".toList

/-- The alphabet character of a 6-bit value. -/
def b64Char (n : Nat) : Char := b64Alphabet.getD n 'A'

/-- The 6-bit value of an alphabet character. -/
def b64Val (c : Char) : Option Nat := b64Alphabet.findIdx? (· == c)

/-- Base64-encode a byte list, three bytes to four characters, padding the
final group with `=`. -/
def base64EncodeList : List Nat → List Char
  | [] => []
  | [a] => [b64Char (a / 4), b64Char (a % 4 * 16), '=', '=']
  | [a, b] => [b64Char (a / 4), b64Char (a % 4 * 16 + b / 16), b64Char (b % 16 * 4), '=']
  | a :: b :: c :: rest =>
      b64Char (a / 4) :: b64Char (a % 4 * 16 + b / 16) ::
        b64Char (b % 16 * 4 + c / 64) :: b64Char (c % 64) :: base64EncodeList rest

/-- Base64-decode a character list: four characters to three bytes, the
final group possibly `=`-padded. -/
def base64DecodeList : List Char → Option (List Nat)
  | [] => some []
  | c1 :: c2 :: c3 :: c4 :: rest =>
      if c3 = '=' ∧ c4 = '=' ∧ rest = [] then do
        let v1 ← b64Val c1
        let v2 ← b64Val c2
        pure [v1 * 4 + v2 / 16]
      else if c4 = '=' ∧ rest = [] then do
        let v1 ← b64Val c1
        let v2 ← b64Val c2
        let v3 ← b64Val c3
        pure [v1 * 4 + v2 / 16, v2 % 16 * 16 + v3 / 4]
      else do
        let v1 ← b64Val c1
        let v2 ← b64Val c2
        let v3 ← b64Val c3
        let v4 ← b64Val c4
        let tail ← base64DecodeList rest
        pure ((v1 * 4 + v2 / 16) :: (v2 % 16 * 16 + v3 / 4) :: (v3 % 4 * 64 + v4) :: tail)
  | _ => none

/-- Base64-encode bytes to a string (`Buffer.prototype.toString('base64')`). -/
def base64Encode (bs : List Nat) : String := String.mk (base64EncodeList bs)

/-- Base64-decode a string to bytes (`Buffer.from(s, 'base64')`). -/
def base64Decode (s : String) : Option (List Nat) := base64DecodeList s.data

/-- The UTF-8 bytes of a string, as `Buffer.from(convertString)` reads a
JS string. -/
def utf8Bytes (s : String) : List Nat := s.toUTF8.toList.map (fun b => b.toNat)

/-- Source lines 125-127: `convertToBase64(convertString)` returns
`Buffer.from(convertString).toString('base64')`. -/
def convertToBase64 (convertString : String) : String :=
  base64Encode (utf8Bytes convertString)

theorem b64Val_b64Char : ∀ n, n < 64 → b64Val (b64Char n) = some n := by decide

theorem b64Char_ne_pad : ∀ n, n < 64 → b64Char n ≠ '=' := by decide

theorem base64DecodeList_encodeList (bs : List Nat) (h : ∀ b ∈ bs, b < 256) :
    base64DecodeList (base64EncodeList bs) = some bs := by
  induction bs using base64EncodeList.induct with
  | case1 => rfl
  | case2 a =>
      have ha : a < 256 := h a (by simp)
      rw [base64EncodeList, base64DecodeList,
        if_pos ⟨rfl, rfl, rfl⟩,
        b64Val_b64Char _ (by omega), b64Val_b64Char _ (by omega)]
      simp only [Option.bind_eq_bind, Option.some_bind, pure]
      congr 2
      omega
  | case3 a b =>
      have ha : a < 256 := h a (by simp)
      have hb : b < 256 := h b (by simp)
      rw [base64EncodeList, base64DecodeList,
        if_neg (by
          intro hcontra
          exact b64Char_ne_pad (b % 16 * 4) (by omega) hcontra.1),
        if_pos ⟨rfl, rfl⟩,
        b64Val_b64Char _ (by omega), b64Val_b64Char _ (by omega),
        b64Val_b64Char _ (by omega)]
      simp only [Option.bind_eq_bind, Option.some_bind, pure]
      congr 1
      congr 1
      · omega
      · congr 1
        omega
  | case4 a b c rest ih =>
      have ha : a < 256 := h a (by simp)
      have hb : b < 256 := h b (by simp)
      have hc : c < 256 := h c (by simp)
      have htail : base64DecodeList (base64EncodeList rest) = some rest :=
        ih (fun x hx => h x (by simp [hx]))
      rw [base64EncodeList, base64DecodeList,
        if_neg (by
          intro hcontra
          exact b64Char_ne_pad (b % 16 * 4 + c / 64) (by omega) hcontra.1),
        if_neg (by
          intro hcontra
          exact b64Char_ne_pad (c % 64) (by omega) hcontra.1),
        b64Val_b64Char _ (by omega), b64Val_b64Char _ (by omega),
        b64Val_b64Char _ (by omega), b64Val_b64Char _ (by omega), htail]
      simp only [Option.bind_eq_bind, Option.some_bind, pure]
      congr 1
      congr 1
      · omega
      · congr 1
        · omega
        · congr 1
          omega

theorem base64Decode_base64Encode (bs : List Nat) (h : ∀ b ∈ bs, b < 256) :
    base64Decode (base64Encode bs) = some bs :=
  base64DecodeList_encodeList bs h

theorem utf8Bytes_lt (s : String) : ∀ b ∈ utf8Bytes s, b < 256 := by
  intro b hb
  simp only [utf8Bytes, List.mem_map] at hb
  obtain ⟨u, _, rfl⟩ := hb
  exact u.toNat_lt

/-! ## The methods of `ICONPortfolio` -/

/-- JS string truthiness of an optional string value: `undefined` and the
empty string are falsy. -/
def strFalsy : Option String → Bool
  | none => true
  | some s => s == ""

/-- The try block of `getUser` (lines 39-44): evaluate the callee
`octokit.request` (the bare identifier throws), dispatch `GET
/users/{username}`, store `response.data` in `this.user` and log the
success message.  Returns the thrown error or the new user with the
success log, plus the requests dispatched. -/
def getUserTry (api : Api) (username : String) :
    Except JsError (User × String) × List HttpRequest :=
  match bareOctokit with
  | .error e => (.error e, [])
  | .ok _ =>
      let req : HttpRequest := ⟨"GET", s!"/users/{username}", [("username", username)]⟩
      match api req with
      | .error e => (.error e, [req])
      | .ok data => (.ok (⟨data.login⟩, s!"{data.login} is authenticated"), [req])

/-- Lines 38-48: `getUser(username)`.  On a caught error the catch block
logs `error.response?.data?.message ?? 'Can't get username for user
{username}. Please try again.'`; the fallback only reads the parameter
`username`, so the catch never throws and the method always resolves. -/
def getUser (api : Api) (s : PortfolioState) (username : String) : Outcome Unit :=
  match getUserTry api username with
  | (.ok (u, log), reqs) =>
      { result := .ok (), state := { s with user := some u }, requests := reqs,
        logs := [log] }
  | (.error e, reqs) =>
      { result := .ok (), state := s, requests := reqs,
        logs := [caughtMessage e s!"Can't get username for user {username}. Please try again."] }

/-- Lines 20-30: `authenticate(username, token = process.env.AUTH_TOKEN)`.
`env` is the value of `process.env.AUTH_TOKEN`; `tokenArg` is the explicit
argument (`none` when absent or `undefined`, so the default applies).  The
method logs a complaint when neither resolves to a truthy token, then
unconditionally assigns `this.octokit = new Octokit({ auth: token })` and
awaits `this.getUser(username)`. -/
def authenticate (api : Api) (env : Option String) (s : PortfolioState)
    (username : String) (tokenArg : Option String) : Outcome Unit :=
  let token : Option String := tokenArg <|> env
  let warn : List String :=
    if strFalsy env && strFalsy token then
      ["Can't authenticate to Octokit with invalid token. Please recheck your token"]
    else []
  let s1 := { s with octokit := some ⟨token⟩ }
  let o := getUser api s1 username
  { o with logs := warn ++ o.logs }

/-- The try block of `createRepository` (lines 56-61): the callee
`octokit.request` is resolved before the arguments, so the name expression
`name ?? 'ICON Web Portfolio ' + uuidv4()` (line 58) is only evaluated
once the identifier resolves.  `uuid` stands for the value `uuidv4()`
would draw. -/
def createRepositoryTry (api : Api) (name : Option String) (uuid : String) :
    Except JsError (Repository × String) × List HttpRequest :=
  match bareOctokit with
  | .error e => (.error e, [])
  | .ok _ =>
      let repoName := name.getD ("ICON Web Portfolio " ++ uuid)
      let req : HttpRequest := ⟨"POST", "/user/repos", [("name", repoName)]⟩
      match api req with
      | .error e => (.error e, [req])
      | .ok data => (.ok (⟨data.name⟩, s!"{data.name} was created"), [req])

/-- Lines 55-65: `createRepository(name)`.  The catch fallback is a plain
string, so the catch never throws. -/
def createRepository (api : Api) (s : PortfolioState) (name : Option String)
    (uuid : String) : Outcome Unit :=
  match createRepositoryTry api name uuid with
  | (.ok (r, log), reqs) =>
      { result := .ok (), state := { s with repository := some r }, requests := reqs,
        logs := [log] }
  | (.error e, reqs) =>
      { result := .ok (), state := s, requests := reqs,
        logs := [caughtMessage e "Can't create a new repository. Please try again."] }

/-- The try block of `getRepository` (lines 73-83): `const owner =
this.user.login` throws a `TypeError` when `this.user` is `null`; then the
bare `octokit` is resolved, the request dispatched and `this.repository`
assigned from `response.data`. -/
def getRepositoryTry (api : Api) (s : PortfolioState) (name : String) :
    Except JsError (Repository × String) × List HttpRequest :=
  match s.user with
  | none => (.error (.typeError "Cannot read properties of null (reading 'login')"), [])
  | some u =>
      match bareOctokit with
      | .error e => (.error e, [])
      | .ok _ =>
          let req : HttpRequest :=
            ⟨"GET", s!"/repos/{u.login}/{name}", [("owner", u.login), ("repo", name)]⟩
          match api req with
          | .error e => (.error e, [req])
          | .ok data => (.ok (⟨data.name⟩, s!"Successfully get detail of {data.name}"), [req])

/-- Lines 72-87: `getRepository(name)`.  The catch fallback only reads the
parameter `name`, so the catch never throws; on any caught error
`this.repository` keeps its previous value (the assignment on line 81 was
never reached). -/
def getRepository (api : Api) (s : PortfolioState) (name : String) : Outcome Unit :=
  match getRepositoryTry api s name with
  | (.ok (r, log), reqs) =>
      { result := .ok (), state := { s with repository := some r }, requests := reqs,
        logs := [log] }
  | (.error e, reqs) =>
      { result := .ok (), state := s, requests := reqs,
        logs := [caughtMessage e s!"Can't get the detail of the repository {name}"] }

/-- The try block of `uploadFileToRepository` (lines 97-114).  The guard on
lines 98-100 only logs -- it does not return -- so execution continues:
`this.user.login` (line 102) and `this.repository.name` (line 103) throw a
`TypeError` on a `null` field, then `convertToBase64` runs, then the bare
`octokit` throws.  Returns the success log and the dispatched requests. -/
def uploadTry (api : Api) (s : PortfolioState) (filePath content : String) :
    Except JsError String × List HttpRequest :=
  match s.user with
  | none => (.error (.typeError "Cannot read properties of null (reading 'login')"), [])
  | some u =>
      match s.repository with
      | none => (.error (.typeError "Cannot read properties of null (reading 'name')"), [])
      | some r =>
          let base64Content := convertToBase64 content
          match bareOctokit with
          | .error e => (.error e, [])
          | .ok _ =>
              let req : HttpRequest :=
                ⟨"PUT", s!"/repos/{u.login}/{r.name}/contents/{filePath}",
                  [("owner", u.login), ("repo", r.name), ("path", filePath),
                    ("message", s!"create a new {filePath}"), ("content", base64Content)]⟩
              match api req with
              | .error e => (.error e, [req])
              | .ok _ => (.ok s!"{filePath} is uploaded successfully", [req])

/-- Lines 96-118: `uploadFileToRepository(filePath, content)`.  The
precondition message is logged first when a field is unset (lines 98-100).
On a caught error without a response message, the catch block evaluates
the fallback template, which reads `repository` -- a `const` scoped to the
try block and not visible in the catch -- so the catch itself throws
`ReferenceError` and the method rejects without logging. -/
def uploadFileToRepository (api : Api) (s : PortfolioState)
    (filePath content : String) : Outcome Unit :=
  let precondLogs : List String :=
    if s.user.isNone || s.repository.isNone then
      ["Please authenticate and create repository methods before uploading a file"]
    else []
  match uploadTry api s filePath content with
  | (.ok log, reqs) =>
      { result := .ok (), state := s, requests := reqs, logs := precondLogs ++ [log] }
  | (.error e, reqs) =>
      match responseDataMessage e with
      | some m =>
          { result := .ok (), state := s, requests := reqs, logs := precondLogs ++ [m] }
      | none =>
          { result := .error (.referenceError "repository"), state := s,
            requests := reqs, logs := precondLogs }

/-- The try block of `createGithubPage` (lines 135-151): `this.user.login`
and `this.repository.name` throw a `TypeError` on a `null` field, then the
bare `octokit` throws; the intended request is `POST
/repos/{owner}/{repo}/pages` with source branch `main`, path `/` and
workflow build, whose response `url` is only logged. -/
def createGithubPageTry (api : Api) (s : PortfolioState) :
    Except JsError String × List HttpRequest :=
  match s.user with
  | none => (.error (.typeError "Cannot read properties of null (reading 'login')"), [])
  | some u =>
      match s.repository with
      | none => (.error (.typeError "Cannot read properties of null (reading 'name')"), [])
      | some r =>
          match bareOctokit with
          | .error e => (.error e, [])
          | .ok _ =>
              let req : HttpRequest :=
                ⟨"POST", s!"/repos/{u.login}/{r.name}/pages",
                  [("owner", u.login), ("repo", r.name), ("source.branch", "main"),
                    ("source.path", "/"), ("build_type", "workflow")]⟩
              match api req with
              | .error e => (.error e, [req])
              | .ok data => (.ok s!"{data.url} is being created", [req])

/-- Lines 134-155: `createGithubPage()`.  On a caught error without a
response message the catch evaluates the fallback template, which reads
`this.repository.name` (line 153): with `this.repository` still `null`
this throws a `TypeError` out of the catch and the method rejects without
logging; with a repository set the fallback message is logged.  The method
returns `undefined` in every case -- the Pages `url` is only logged. -/
def createGithubPage (api : Api) (s : PortfolioState) : Outcome Unit :=
  match createGithubPageTry api s with
  | (.ok log, reqs) =>
      { result := .ok (), state := s, requests := reqs, logs := [log] }
  | (.error e, reqs) =>
      match responseDataMessage e with
      | some m => { result := .ok (), state := s, requests := reqs, logs := [m] }
      | none =>
          match s.repository with
          | none =>
              { result := .error (.typeError "Cannot read properties of null (reading 'name')"),
                state := s, requests := reqs, logs := [] }
          | some r =>
              { result := .ok (), state := s, requests := reqs,
                logs := [s!"Can't create a Github Pages for the repository {r.name}"] }

/-! ## Sequences of operations -/

/-- One call on the client, with the impure inputs (`uuidv4()` draw,
explicit token argument) made explicit. -/
inductive Op where
  | authenticate (username : String) (tokenArg : Option String)
  | createRepository (name : Option String) (uuid : String)
  | getRepository (name : String)
  | uploadFileToRepository (filePath content : String)
  | createGithubPage
  deriving Repr, DecidableEq

/-- Dispatch one operation. -/
def runOp (api : Api) (env : Option String) (s : PortfolioState) : Op → Outcome Unit
  | .authenticate username tokenArg => authenticate api env s username tokenArg
  | .createRepository name uuid => createRepository api s name uuid
  | .getRepository name => getRepository api s name
  | .uploadFileToRepository filePath content => uploadFileToRepository api s filePath content
  | .createGithubPage => createGithubPage api s

/-- Run a sequence of awaited calls, as the example driver at the bottom of
the source does: stop at the first rejected promise (an uncaught error at
the top level ends the script).  Returns the final state and every HTTP
request dispatched along the way. -/
def runOps (api : Api) (env : Option String) :
    PortfolioState → List Op → PortfolioState × List HttpRequest
  | s, [] => (s, [])
  | s, op :: ops =>
      let o := runOp api env s op
      match o.result with
      | .error _ => (o.state, o.requests)
      | .ok _ =>
          let rest := runOps api env o.state ops
          (rest.1, o.requests ++ rest.2)

/-! ## Concrete mocks used by the closed theorems -/

/-- A mocked API answering every request with a canned success payload. -/
def mockApi : Api := fun _ => .ok ⟨"iconclub", "demo-site", "https://iconclub.github.io/demo-site/"⟩

/-- A mocked API answering every request with 404 Not Found. -/
def api404 : Api := fun _ => .error (.apiError 404 (some "Not Found"))

/-- A mocked API returning the requested profile for `GET /users/octo-user`. -/
def mockUserApi : Api := fun req =>
  if req.method = "GET" && req.path = "/users/octo-user" then
    .ok ⟨"octo-user", "", ""⟩
  else
    .error (.apiError 404 (some "Not Found"))

/-- A session in which `authenticate` and `createRepository` both appear to
have succeeded: handle, user and repository all set. -/
def stateWithUserRepo : PortfolioState :=
  ⟨some ⟨some "tok_abc"⟩, some ⟨"octo-user"⟩, some ⟨"demo-site"⟩⟩

/-- A session with a repository already held: used to observe that a failed
`getRepository` does not overwrite it. -/
def stateWithRepo : PortfolioState :=
  ⟨some ⟨some "tok_abc"⟩, some ⟨"octo-user"⟩, some ⟨"old-repo"⟩⟩

/-! ## Frame lemmas: no operation ever dispatches a request or populates
the session -/

theorem runOp_frame (api : Api) (env : Option String) (s : PortfolioState) (op : Op) :
    (runOp api env s op).state.user = s.user ∧
    (runOp api env s op).state.repository = s.repository ∧
    (runOp api env s op).requests = [] := by
  cases op with
  | authenticate username tokenArg =>
      simp [runOp, authenticate, getUser, getUserTry, bareOctokit, caughtMessage,
        responseDataMessage]
  | createRepository name uuid =>
      simp [runOp, createRepository, createRepositoryTry, bareOctokit, caughtMessage,
        responseDataMessage]
  | getRepository name =>
      cases hu : s.user <;>
        simp [runOp, getRepository, getRepositoryTry, bareOctokit, hu, caughtMessage,
          responseDataMessage]
  | uploadFileToRepository filePath content =>
      cases hu : s.user <;> cases hr : s.repository <;>
        simp [runOp, uploadFileToRepository, uploadTry, bareOctokit, hu, hr,
          responseDataMessage]
  | createGithubPage =>
      cases hu : s.user <;> cases hr : s.repository <;>
        simp [runOp, createGithubPage, createGithubPageTry, bareOctokit, hu, hr,
          responseDataMessage]

theorem runOps_frame (api : Api) (env : Option String) (ops : List Op) :
    ∀ s : PortfolioState,
      (runOps api env s ops).1.user = s.user ∧
      (runOps api env s ops).1.repository = s.repository ∧
      (runOps api env s ops).2 = [] := by
  induction ops with
  | nil =>
      intro s
      exact ⟨rfl, rfl, rfl⟩
  | cons op ops ih =>
      intro s
      obtain ⟨h1, h2, h3⟩ := runOp_frame api env s op
      obtain ⟨g1, g2, g3⟩ := ih (runOp api env s op).state
      simp only [runOps]
      cases hres : (runOp api env s op).result with
      | error e => simp [hres, h1, h2, h3]
      | ok v => simp [hres, h1, h2, h3, g1, g2, g3]

/-! ## The claims -/

/-- C1 (code bug): the spec requires `uploadFileToRepository` to fail fast
with a precondition error when User or Repository is unset, instead of
proceeding with a null reference.  The code's guard (lines 98-100) logs
the precondition message but does not return: on a fresh session the call
goes on to dereference the `null` field `this.user` (a `TypeError`), and
the catch block, evaluating its fallback template, throws a
`ReferenceError` on the try-scoped `repository` -- the call rejects.  No
network request is issued (that part never could be: the dispatch is
behind the unbound identifier `octokit`). -/
theorem upload_without_session_null_deref :
    (uploadTry mockApi initialState "index.html" "hello").1 =
      .error (.typeError "Cannot read properties of null (reading 'login')") ∧
    (uploadFileToRepository mockApi initialState "index.html" "hello").result =
      .error (.referenceError "repository") ∧
    (uploadFileToRepository mockApi initialState "index.html" "hello").requests = [] ∧
    (uploadFileToRepository mockApi initialState "index.html" "hello").logs =
      ["Please authenticate and create repository methods before uploading a file"] :=
  ⟨rfl, rfl, rfl, rfl⟩

/-- C2 (counterexample): `authenticate` with no explicit token and no
configured `AUTH_TOKEN` completes with `.ok ()` -- no error of any kind
reaches the caller; the complaint is only a console line, followed by
`getUser`'s fallback line.  (No network call is performed, but only
because every request throws on the unbound identifier `octokit`.) -/
theorem authenticate_no_token_counterexample :
    (authenticate mockApi none initialState "iconclub" none).result = .ok () ∧
    (authenticate mockApi none initialState "iconclub" none).requests = [] ∧
    (authenticate mockApi none initialState "iconclub" none).logs =
      ["Can't authenticate to Octokit with invalid token. Please recheck your token",
        "Can't get username for user iconclub. Please try again."] :=
  ⟨rfl, rfl, rfl⟩

/-- C2 (amended): for every call to `authenticate` in which no token is
resolvable, the operation performs no network call and logs a
configuration complaint to the console, but surfaces no error to the
caller: it completes normally, still constructs the Octokit handle with
the unresolved token, and leaves the session's User null. -/
theorem authenticate_no_token_logs_only (api : Api) (env tokenArg : Option String)
    (username : String) (henv : strFalsy env = true) (htok : strFalsy tokenArg = true) :
    (authenticate api env initialState username tokenArg).result = .ok () ∧
    (authenticate api env initialState username tokenArg).requests = [] ∧
    (authenticate api env initialState username tokenArg).logs =
      ["Can't authenticate to Octokit with invalid token. Please recheck your token",
        s!"Can't get username for user {username}. Please try again."] ∧
    (authenticate api env initialState username tokenArg).state.octokit =
      some ⟨tokenArg <|> env⟩ ∧
    (authenticate api env initialState username tokenArg).state.user = none := by
  have htoken : strFalsy (tokenArg <|> env) = true := by
    cases tokenArg with
    | none => simpa using henv
    | some t => simpa [strFalsy] using htok
  refine ⟨rfl, rfl, ?_, rfl, rfl⟩
  simp [authenticate, getUser, getUserTry, bareOctokit, caughtMessage,
    responseDataMessage, henv, htoken]

/-- C2 witness: the amended claim at the concrete call
`authenticate('iconclub')` with no `AUTH_TOKEN` configured. -/
theorem authenticate_no_token_witness :
    strFalsy none = true ∧
    ((authenticate mockApi none initialState "iconclub" none).result = .ok () ∧
      (authenticate mockApi none initialState "iconclub" none).requests = [] ∧
      (authenticate mockApi none initialState "iconclub" none).logs =
        ["Can't authenticate to Octokit with invalid token. Please recheck your token",
          "Can't get username for user iconclub. Please try again."] ∧
      (authenticate mockApi none initialState "iconclub" none).state.octokit =
        some ⟨none⟩ ∧
      (authenticate mockApi none initialState "iconclub" none).state.user = none) :=
  ⟨rfl, authenticate_no_token_logs_only mockApi none none "iconclub" rfl rfl⟩

/-- C3 (code bug): the spec says no operation throws for an expected
failure mode and every failure is reported with the remote message or a
generic fallback.  In the code two catch blocks themselves throw when the
fallback is evaluated: `createGithubPage` on a session with no repository
dereferences `this.repository.name` (line 153, a `TypeError`), and
`uploadFileToRepository` reads the try-scoped `repository` (line 116, a
`ReferenceError`).  Both calls reject and log nothing at all. -/
theorem createGithubPage_catch_throws :
    (createGithubPage mockApi initialState).result =
      .error (.typeError "Cannot read properties of null (reading 'name')") ∧
    (createGithubPage mockApi initialState).logs = [] ∧
    (createGithubPage mockApi initialState).requests = [] ∧
    (uploadFileToRepository mockApi stateWithUserRepo "style.css" "body {}").result =
      .error (.referenceError "repository") ∧
    (uploadFileToRepository mockApi stateWithUserRepo "style.css" "body {}").logs = [] :=
  ⟨rfl, rfl, rfl, rfl, rfl⟩

/-- C4 (counterexample): with the session holding repository `old-repo`
and a mocked API answering 404 `Not Found`, `getRepository('missing-repo')`
does not yield a failure result carrying the API's message: it resolves
with `.ok ()` and logs only the generic fallback -- the request is never
dispatched (unbound `octokit`), so the remote message cannot be seen.
The Repository field is indeed left as it was. -/
theorem getRepository_404_counterexample :
    (getRepository api404 stateWithRepo "missing-repo").result = .ok () ∧
    (getRepository api404 stateWithRepo "missing-repo").requests = [] ∧
    (getRepository api404 stateWithRepo "missing-repo").logs =
      ["Can't get the detail of the repository missing-repo"] ∧
    (getRepository api404 stateWithRepo "missing-repo").state.repository =
      some ⟨"old-repo"⟩ :=
  ⟨rfl, rfl, rfl, rfl⟩

/-- C4 (amended): every `getRepository(name)` call fails before dispatch
(`this.user.login` throws on a null user; otherwise the unbound identifier
`octokit` throws), so the method never receives the API's message; it
completes normally, logs the generic fallback to the console rather than
returning a failure result, and leaves the whole session -- the Repository
field in particular -- exactly as it was before the call. -/
theorem getRepository_preserves_repository (api : Api) (s : PortfolioState)
    (name : String) :
    (getRepository api s name).state.repository = s.repository ∧
    (getRepository api s name).state = s ∧
    (getRepository api s name).result = .ok () ∧
    (getRepository api s name).requests = [] ∧
    (getRepository api s name).logs =
      [s!"Can't get the detail of the repository {name}"] := by
  cases hu : s.user <;>
    simp [getRepository, getRepositoryTry, bareOctokit, hu, caughtMessage,
      responseDataMessage]

/-- C5 (code bug): the spec (and the method's own doc comment, line 51)
says `createRepository()` with no name sends `POST /user/repos` with a
generated name `ICON Web Portfolio <uuid-v4>`.  In the code the callee
`octokit.request` is resolved before the arguments, and the bare
identifier `octokit` is unbound: the call throws a `ReferenceError`
before the name expression (or `uuidv4()`) is even evaluated, no POST is
issued, the generic fallback is logged and the session's Repository stays
null. -/
theorem createRepository_no_post :
    (createRepository mockApi initialState none "f47ac10b-58cc-4372-a567-0e02b2c3d479").requests = [] ∧
    (createRepository mockApi initialState none "f47ac10b-58cc-4372-a567-0e02b2c3d479").logs =
      ["Can't create a new repository. Please try again."] ∧
    (createRepository mockApi initialState none "f47ac10b-58cc-4372-a567-0e02b2c3d479").state.repository = none ∧
    (createRepository mockApi initialState none "f47ac10b-58cc-4372-a567-0e02b2c3d479").result = .ok () :=
  ⟨rfl, rfl, rfl, rfl⟩

/-- C6 (code bug): the spec (and the method's doc comment, line 90) says
`uploadFileToRepository`, preconditions held, issues exactly one
`PUT /repos/{owner}/{repo}/contents/{filePath}` with base64 content and
commit message `create a new {filePath}`.  In the code the request
evaluation throws on the unbound identifier `octokit` (after
`convertToBase64` has run), and the catch, evaluating its fallback,
throws a `ReferenceError` on the try-scoped `repository`: no PUT is
issued, nothing is logged, and the call rejects. -/
theorem upload_no_put :
    (uploadFileToRepository mockApi stateWithUserRepo "index.html" "<html></html>").requests = [] ∧
    (uploadFileToRepository mockApi stateWithUserRepo "index.html" "<html></html>").result =
      .error (.referenceError "repository") ∧
    (uploadFileToRepository mockApi stateWithUserRepo "index.html" "<html></html>").logs = [] :=
  ⟨rfl, rfl, rfl⟩

/-- C7 (counterexample): on a session with User `octo-user` and Repository
`demo-site`, against a mocked API that would answer with a Pages URL,
`createGithubPage` issues no POST at all and returns `undefined`, logging
only the fallback message: the claimed request and returned URL never
happen. -/
theorem createGithubPage_no_url_counterexample :
    (createGithubPage mockApi stateWithUserRepo).requests = [] ∧
    (createGithubPage mockApi stateWithUserRepo).result = .ok () ∧
    (createGithubPage mockApi stateWithUserRepo).logs =
      ["Can't create a Github Pages for the repository demo-site"] :=
  ⟨rfl, rfl, rfl⟩

/-- C7 (amended): for every session with User and Repository set,
`createGithubPage` issues no request -- the request expression throws a
`ReferenceError` on the unbound identifier `octokit` before dispatch --
and returns no URL: it completes with `undefined`, logging the fallback
message naming the session repository, the session unchanged.  (Even on
the intended success path the URL is only logged, never returned.) -/
theorem createGithubPage_no_post_no_url (api : Api) (s : PortfolioState)
    (u : User) (r : Repository) (hu : s.user = some u) (hr : s.repository = some r) :
    (createGithubPage api s).requests = [] ∧
    (createGithubPage api s).result = .ok () ∧
    (createGithubPage api s).logs =
      [s!"Can't create a Github Pages for the repository {r.name}"] ∧
    (createGithubPage api s).state = s := by
  simp [createGithubPage, createGithubPageTry, bareOctokit, hu, hr, responseDataMessage]

/-- C7 witness: the amended claim at the concrete session
(`octo-user`, `demo-site`). -/
theorem createGithubPage_no_post_witness :
    stateWithUserRepo.user = some ⟨"octo-user"⟩ ∧
    stateWithUserRepo.repository = some ⟨"demo-site"⟩ ∧
    ((createGithubPage mockApi stateWithUserRepo).requests = [] ∧
      (createGithubPage mockApi stateWithUserRepo).result = .ok () ∧
      (createGithubPage mockApi stateWithUserRepo).logs =
        ["Can't create a Github Pages for the repository demo-site"] ∧
      (createGithubPage mockApi stateWithUserRepo).state = stateWithUserRepo) :=
  ⟨rfl, rfl,
    createGithubPage_no_post_no_url mockApi stateWithUserRepo ⟨"octo-user"⟩
      ⟨"demo-site"⟩ rfl rfl⟩

/-- C8 (confirmed): decoding the output of the client's base64 encoding
returns the original bytes exactly, for every byte sequence (empty input
included), and in particular for the UTF-8 bytes of any string passed to
`convertToBase64` (multi-byte text included). -/
theorem base64_roundtrip (bs : List Nat) (s : String) (h : ∀ b ∈ bs, b < 256) :
    base64Decode (base64Encode bs) = some bs ∧
    base64Decode (convertToBase64 s) = some (utf8Bytes s) :=
  ⟨base64Decode_base64Encode bs h,
    base64Decode_base64Encode (utf8Bytes s) (utf8Bytes_lt s)⟩

/-- C8 witness: the round trip at the concrete bytes `[0, 104, 233, 255]`
and the multi-byte string `héllo`. -/
theorem base64_roundtrip_witness :
    (∀ b ∈ [0, 104, 233, 255], b < 256) ∧
    (base64Decode (base64Encode [0, 104, 233, 255]) = some [0, 104, 233, 255] ∧
      base64Decode (convertToBase64 "héllo") = some (utf8Bytes "héllo")) :=
  ⟨by decide, base64_roundtrip [0, 104, 233, 255] "héllo" (by decide)⟩

/-- C9 (code bug): the spec says authenticating with a valid username and
token against a mocked API returning the requested profile populates the
session's User with the input login.  The code does construct the
authenticated handle first (`this.octokit` is assigned the token), but
`getUser`'s request throws a `ReferenceError` on the unbound identifier
`octokit` before the mocked API is ever consulted: the catch logs the
fallback and the session's User remains null. -/
theorem authenticate_user_never_populated :
    (authenticate mockUserApi none initialState "octo-user" (some "tok_abc")).state.user = none ∧
    (authenticate mockUserApi none initialState "octo-user" (some "tok_abc")).state.octokit =
      some ⟨some "tok_abc"⟩ ∧
    (authenticate mockUserApi none initialState "octo-user" (some "tok_abc")).requests = [] ∧
    (authenticate mockUserApi none initialState "octo-user" (some "tok_abc")).logs =
      ["Can't get username for user octo-user. Please try again."] :=
  ⟨rfl, rfl, rfl, rfl⟩

/-- C10 (confirmed): every remote request in the class goes through the
bare identifier `octokit`, which is never bound (only the instance field
`this.octokit` is assigned), so each network-backed operation's try branch
throws before any dispatch: for every sequence of operations on a freshly
constructed client, under any mocked API and any environment, no HTTP
request is ever issued and the session's user and repository fields remain
null for the life of the process. -/
theorem octokit_unbound_no_requests (api : Api) (env : Option String) (ops : List Op) :
    (runOps api env initialState ops).1.user = none ∧
    (runOps api env initialState ops).1.repository = none ∧
    (runOps api env initialState ops).2 = [] ∧
    (∀ username, (getUserTry api username).1 = .error (.referenceError "octokit")) ∧
    (∀ name uuid, (createRepositoryTry api name uuid).1 =
      .error (.referenceError "octokit")) := by
  obtain ⟨h1, h2, h3⟩ := runOps_frame api env ops initialState
  exact ⟨h1, h2, h3, fun _ => rfl, fun _ _ => rfl⟩

end IconPortfolio
